import Mathlib

/-!
Shallow embedding of the GA4GH read-translation server excerpt
(`ga4gh/datamodel/reads.py` and `ga4gh/frontend.py`) and proofs about it.

Python call results are modelled with `Except PyErr`: `Except.ok v` is a
normal return of the value `v` (v may be the Python value `None`, modelled
with `Option`), and `Except.error e` is a raised exception.
-/

/-- Errors the excerpt can raise: `indexError` models Python's `IndexError`
from list subscripting, `unknownReferenceId` the exception raised by the
reference-name lookup (`sanitizeGetRName`) for an unresolvable index. -/
inductive PyErr where
  | indexError
  | unknownReferenceId
  deriving DecidableEq, Repr

instance {ε α : Type} [DecidableEq ε] [DecidableEq α] : DecidableEq (Except ε α) := fun a b =>
  match a, b with
  | .ok x, .ok y =>
    if h : x = y then isTrue (by rw [h]) else isFalse (fun hh => h (Except.ok.inj hh))
  | .ok _, .error _ => isFalse (fun hh => Except.noConfusion hh)
  | .error _, .ok _ => isFalse (fun hh => Except.noConfusion hh)
  | .error x, .error y =>
    if h : x = y then isTrue (by rw [h]) else isFalse (fun hh => h (Except.error.inj hh))

/-- Python list subscripting `l[i]`: a non-negative index is used directly, a
negative index `i` addresses position `len(l) + i`, and anything still out of
range raises `IndexError`. -/
def pyGetItem {α : Type} (l : List α) (i : Int) : Except PyErr α :=
  if i < 0 then
    if 0 ≤ (l.length : Int) + i then
      match l.get? ((l.length : Int) + i).toNat with
      | some x => Except.ok x
      | none => Except.error PyErr.indexError
    else Except.error PyErr.indexError
  else
    match l.get? i.toNat with
    | some x => Except.ok x
    | none => Except.error PyErr.indexError

/-- Modelled from the spec: the `ga4gh.protocol` module is not part of the
excerpt; its `CigarOperation` enumeration supplies 9 distinct named
constants, modelled here by their names as strings.
This is `SamCigar.cigarStrings`, the fixed ordered list from the source. -/
def SamCigar.cigarStrings : List String :=
  ["ALIGNMENT_MATCH",
   "INSERT",
   "DELETE",
   "SKIP",
   "CLIP_SOFT",
   "CLIP_HARD",
   "PAD",
   "SEQUENCE_MATCH",
   "SEQUENCE_MISMATCH"]

/-- The scan of `SamCigar.ga2int`: `for i, cigarString in enumerate(...)`
returning `i` on the first match, starting the index at `start`. -/
def SamCigar.ga2intScan (start : Nat) : List String → String → Option Nat
  | [], _ => none
  | cigarString :: rest, value =>
    if value = cigarString then some start
    else SamCigar.ga2intScan (start + 1) rest value

/-- `SamCigar.ga2int`: linear scan over `cigarStrings` for the first index
whose entry equals `value`.  When no entry matches, the Python `for` loop
falls off the end and the function returns `None` (no exception is raised),
hence the result `Except.ok none`. -/
def SamCigar.ga2int (value : String) : Except PyErr (Option Nat) :=
  Except.ok (SamCigar.ga2intScan 0 SamCigar.cigarStrings value)

/-- `SamCigar.int2ga`: `cls.cigarStrings[value]`, Python list subscripting
with its negative-index behaviour and `IndexError`. -/
def SamCigar.int2ga (value : Int) : Except PyErr String :=
  pyGetItem SamCigar.cigarStrings value

/-- The named flag bits of `SamFlags`. -/
def SamFlags.NUMBER_READS : Nat := 0x1

def SamFlags.PROPER_PLACEMENT : Nat := 0x2

def SamFlags.READ_NUMBER_ONE : Nat := 0x40

def SamFlags.READ_NUMBER_TWO : Nat := 0x80

def SamFlags.SECONDARY_ALIGNMENT : Nat := 0x100

def SamFlags.FAILED_VENDOR_QUALITY_CHECKS : Nat := 0x200

def SamFlags.DUPLICATE_FRAGMENT : Nat := 0x400

def SamFlags.SUPPLEMENTARY_ALIGNMENT : Nat := 0x800

/-- `SamFlags.isFlagSet`: `flagAttr & flag == flag`. -/
def SamFlags.isFlagSet (flagAttr flag : Nat) : Bool :=
  flagAttr &&& flag == flag

/-- `SamFlags.setFlag`: the body is the single statement `flagAttr |= flag`.
Python integers are immutable, so the augmented assignment only rebinds the
function-local name `flagAttr`; the caller's value is unchanged, and the
function has no `return`, so it returns `None`.  The result models the pair
(returned value, caller's flag value after the call). -/
def SamFlags.setFlag (flagAttr flag : Nat) : Option Nat × Nat :=
  let _flagAttrRebound := flagAttr ||| flag
  (none, flagAttr)

/-- Strand of `ga4gh.protocol.Strand`; the mapper only ever uses
`POS_STRAND`. -/
inductive Strand where
  | posStrand
  | negStrand
  deriving DecidableEq, Repr

/-- `protocol.Position`: the fields the mapper assigns. -/
structure Position where
  referenceName : String
  position : Int
  strand : Strand
  deriving DecidableEq, Repr

/-- `protocol.CigarUnit`: the fields the mapper assigns. -/
structure CigarUnit where
  operation : String
  operationLength : Int
  referenceSequence : Option String
  deriving DecidableEq, Repr

/-- `protocol.LinearAlignment`: the fields the mapper assigns. -/
structure LinearAlignment where
  mappingQuality : Int
  position : Position
  cigar : List CigarUnit
  deriving DecidableEq, Repr

/-- A Python tag value as found in `read.tags`; `pyStr` models `str(value)`
for the two shapes the mapper meets. -/
inductive PyVal where
  | int (n : Int)
  | str (s : String)
  deriving DecidableEq, Repr

def PyVal.pyStr : PyVal → String
  | .int n => toString n
  | .str s => s

/-- A pysam `AlignedSegment` restricted to the attributes
`convertReadAlignment` reads. -/
structure RawRead where
  query_qualities : List Int
  query_sequence : String
  mapping_quality : Int
  reference_id : Int
  reference_start : Int
  cigar : List (Int × Int)
  flag : Nat
  template_length : Int
  query_name : String
  tags : List (String × PyVal)
  next_reference_id : Int
  next_reference_start : Int
  deriving DecidableEq, Repr

/-- `protocol.ReadAlignment`: the fields `convertReadAlignment` assigns. -/
structure ReadAlignment where
  alignedQuality : List Int
  alignedSequence : String
  alignment : LinearAlignment
  duplicateFragment : Bool
  failedVendorQualityChecks : Bool
  fragmentLength : Int
  fragmentName : String
  id : String
  info : List (String × List String)
  nextMatePosition : Option Position
  numberReads : Option Int
  readNumber : Option Int
  properPlacement : Bool
  readGroupId : String
  secondaryAlignment : Bool
  supplementaryAlignment : Bool
  deriving DecidableEq, Repr

/-- Modelled from the spec: `sanitizeGetRName` followed by
`samFile.getrname` (both defined outside the excerpt) form the
reference-name lookup capability, which "fails with UnknownReferenceId if
the index is not resolvable".  The capability is passed in as
`lookup : Int → Option String`; `none` means not resolvable. -/
def getRName (lookup : Int → Option String) (referenceId : Int) :
    Except PyErr String :=
  match lookup referenceId with
  | some name => Except.ok name
  | none => Except.error PyErr.unknownReferenceId

/-- The `for operation, length in read.cigar` loop of
`convertReadAlignment`: each pair becomes a `CigarUnit` with
`operation = SamCigar.int2ga operation`, `operationLength = length` and
`referenceSequence = None`; a raised exception aborts the loop. -/
def convertCigar : List (Int × Int) → Except PyErr (List CigarUnit)
  | [] => Except.ok []
  | (operation, length) :: rest =>
    match SamCigar.int2ga operation with
    | Except.error e => Except.error e
    | Except.ok op =>
      match convertCigar rest with
      | Except.error e => Except.error e
      | Except.ok units =>
        Except.ok
          ({ operation := op, operationLength := length,
             referenceSequence := none } :: units)

/-- The `nextMatePosition` block of `convertReadAlignment`:
`ret.nextMatePosition = None`, then if `read.next_reference_id != -1` a
`Position` is built from the looked-up name, `read.next_reference_start`
and `POS_STRAND`. -/
def convertNextMatePosition (lookup : Int → Option String) (read : RawRead) :
    Except PyErr (Option Position) :=
  if read.next_reference_id ≠ -1 then
    match getRName lookup read.next_reference_id with
    | Except.error e => Except.error e
    | Except.ok referenceName =>
      Except.ok (some { referenceName := referenceName,
                        position := read.next_reference_start,
                        strand := Strand.posStrand })
  else Except.ok none

/-- The `numberReads` / `readNumber` block of `convertReadAlignment`:
both start as `None`; when the `NUMBER_READS` bit (0x1) is set,
`numberReads = 2` and `readNumber` is 0 when `READ_NUMBER_ONE` (0x40) is
set, else 1 when `READ_NUMBER_TWO` (0x80) is set, else stays `None`. -/
def convertReadNumbers (flag : Nat) : Option Int × Option Int :=
  if SamFlags.isFlagSet flag SamFlags.NUMBER_READS then
    (some 2,
     if SamFlags.isFlagSet flag SamFlags.READ_NUMBER_ONE then some 0
     else if SamFlags.isFlagSet flag SamFlags.READ_NUMBER_TWO then some 1
     else none)
  else (none, none)

/-- `HtslibReadGroup.convertReadAlignment`, field by field from the source;
`id_` is the read group's `self._id`, `lookup` the reference-name
capability of the open sam file.  A raised exception from the reference
lookups or the CIGAR translation aborts the conversion. -/
def convertReadAlignment (lookup : Int → Option String) (id_ : String)
    (read : RawRead) : Except PyErr ReadAlignment :=
  match getRName lookup read.reference_id with
  | Except.error e => Except.error e
  | Except.ok referenceName =>
    match convertCigar read.cigar with
    | Except.error e => Except.error e
    | Except.ok cigar =>
      match convertNextMatePosition lookup read with
      | Except.error e => Except.error e
      | Except.ok nextMatePosition =>
        Except.ok
          { alignedQuality := read.query_qualities,
            alignedSequence := read.query_sequence,
            alignment :=
              { mappingQuality := read.mapping_quality,
                position :=
                  { referenceName := referenceName,
                    position := read.reference_start,
                    strand := Strand.posStrand },
                cigar := cigar },
            duplicateFragment :=
              SamFlags.isFlagSet read.flag SamFlags.DUPLICATE_FRAGMENT,
            failedVendorQualityChecks :=
              SamFlags.isFlagSet read.flag
                SamFlags.FAILED_VENDOR_QUALITY_CHECKS,
            fragmentLength := read.template_length,
            fragmentName := read.query_name,
            id := id_ ++ ":" ++ read.query_name,
            info := read.tags.map (fun kv => (kv.1, [kv.2.pyStr])),
            nextMatePosition := nextMatePosition,
            numberReads := (convertReadNumbers read.flag).1,
            readNumber := (convertReadNumbers read.flag).2,
            properPlacement :=
              SamFlags.isFlagSet read.flag SamFlags.PROPER_PLACEMENT,
            readGroupId := id_,
            secondaryAlignment :=
              SamFlags.isFlagSet read.flag SamFlags.SECONDARY_ALIGNMENT,
            supplementaryAlignment :=
              SamFlags.isFlagSet read.flag
                SamFlags.SUPPLEMENTARY_ALIGNMENT }

/-- The loop of `HtslibReadGroup.getReadAlignments`: the raw records the
reader's `fetch` yields are converted one by one, in order; a raised
exception aborts the sequence. -/
def getReadAlignments (lookup : Int → Option String) (id_ : String) :
    List RawRead → Except PyErr (List ReadAlignment)
  | [] => Except.ok []
  | read :: rest =>
    match convertReadAlignment lookup id_ read with
    | Except.error e => Except.error e
    | Except.ok a =>
      match getReadAlignments lookup id_ rest with
      | Except.error e => Except.error e
      | Except.ok as => Except.ok (a :: as)

/-! Helper lemmas. -/

/-- The full decode/encode table of `SamCigar`, checked by evaluation. -/
lemma cigar_table_fin (j : Fin 9) :
    SamCigar.ga2int (SamCigar.cigarStrings.get ⟨j.val, j.isLt⟩)
      = Except.ok (some j.val)
    ∧ SamCigar.int2ga ((j.val : Nat) : Int)
      = Except.ok (SamCigar.cigarStrings.get ⟨j.val, j.isLt⟩) := by
  revert j
  decide

/-- The scan of `ga2int` returns `none` when the value is in none of the
entries. -/
lemma ga2intScan_not_mem (s : Nat) (l : List String) (v : String)
    (h : v ∉ l) : SamCigar.ga2intScan s l v = none := by
  induction l generalizing s with
  | nil => rfl
  | cons a t ih =>
    rw [List.mem_cons, not_or] at h
    simp only [SamCigar.ga2intScan]
    rw [if_neg h.1]
    exact ih (s + 1) h.2

/-! Theorems for the claims about the CIGAR translator and the flag
helpers. -/

/-- C1: the claim states that the flag-set helper returns `f | b`, so that
`isSet(set(f, b), b)` holds.  The source's `SamFlags.setFlag` consists of
the single statement `flagAttr |= flag`, which rebinds a function-local
name and returns `None`: evaluated at flags 0 and bit 1 it returns `None`,
the caller's flag value stays 0, and `isFlagSet 0 1` is `false`, while
`0 ||| 1 = 1`.  The code is a slip (a setter with no effect); the claim
matches the evident intent. -/
theorem C1_setFlag_is_noop :
    (SamFlags.setFlag 0 1).1 = none
    ∧ (SamFlags.setFlag 0 1).2 = 0
    ∧ SamFlags.isFlagSet (SamFlags.setFlag 0 1).2 1 = false
    ∧ (0 ||| 1 : Nat) = 1 := by
  decide

/-- C2: decode and encode of the CIGAR translator are mutually inverse on
the 9-kind enumeration: the kind at each position j of the fixed list
encodes to j and j decodes back to that kind, and every code c in [0,8]
decodes to a kind that encodes back to c. -/
theorem C2_cigar_roundtrip :
    (∀ j : Nat, j < 9 → ∀ k, SamCigar.cigarStrings.get? j = some k →
       SamCigar.ga2int k = Except.ok (some j)
       ∧ SamCigar.int2ga (j : Int) = Except.ok k)
    ∧ (∀ c : Nat, c ≤ 8 → ∀ k, SamCigar.int2ga (c : Int) = Except.ok k →
       SamCigar.ga2int k = Except.ok (some c)) := by
  constructor
  · intro j hj k hk
    have hj9 : j < SamCigar.cigarStrings.length := hj
    rw [List.get?_eq_get hj9] at hk
    have hk9 := Option.some.inj hk
    subst hk9
    exact cigar_table_fin ⟨j, hj⟩
  · intro c hc k hk
    have hcf : c < 9 := by omega
    have h2 := (cigar_table_fin ⟨c, hcf⟩).2
    rw [hk] at h2
    have hk9 := Except.ok.inj h2
    subst hk9
    exact (cigar_table_fin ⟨c, hcf⟩).1

/-- Witness for C2 at j = 2, k = DELETE. -/
theorem C2_witness_delete :
    SamCigar.ga2int "DELETE" = Except.ok (some 2)
    ∧ SamCigar.int2ga (2 : Int) = Except.ok "DELETE" :=
  C2_cigar_roundtrip.1 2 (by decide) "DELETE" (by decide)

/-- C5 counterexample: the claim states that encode fails with an
UnknownCigarKind error on an input outside the enumeration.  On the value
"BOGUS" the source's `ga2int` loop finds no match, falls off the end and
returns Python `None` normally: no exception of any kind is raised. -/
theorem C5_counterexample_ga2int_returns_normally :
    SamCigar.ga2int "BOGUS" = Except.ok none
    ∧ SamCigar.ga2int "BOGUS" ≠ Except.error PyErr.indexError
    ∧ SamCigar.ga2int "BOGUS" ≠ Except.error PyErr.unknownReferenceId := by
  refine ⟨rfl, ?_, ?_⟩ <;> intro h <;> exact Except.noConfusion h

/-- C5 (amended): for an input value outside the 9-kind enumeration,
encode returns Python `None` normally (it raises nothing); for an input in
the enumeration it returns the first matching index in the fixed list. -/
theorem C5_ga2int_amended :
    (∀ v : String, v ∉ SamCigar.cigarStrings →
       SamCigar.ga2int v = Except.ok none)
    ∧ (∀ j : Nat, j < 9 → ∀ k, SamCigar.cigarStrings.get? j = some k →
       SamCigar.ga2int k = Except.ok (some j)) := by
  constructor
  · intro v hv
    unfold SamCigar.ga2int
    rw [ga2intScan_not_mem 0 _ _ hv]
  · intro j hj k hk
    have hj9 : j < SamCigar.cigarStrings.length := hj
    rw [List.get?_eq_get hj9] at hk
    have hk9 := Option.some.inj hk
    subst hk9
    exact (cigar_table_fin ⟨j, hj⟩).1

/-- Witness for C5 at the unknown value "NOT_A_KIND" and the known kind
at position 1. -/
theorem C5_witness_not_a_kind :
    SamCigar.ga2int "NOT_A_KIND" = Except.ok none
    ∧ SamCigar.ga2int "INSERT" = Except.ok (some 1) :=
  ⟨C5_ga2int_amended.1 "NOT_A_KIND" (by decide),
   C5_ga2int_amended.2 1 (by decide) "INSERT" (by decide)⟩

/-- C6 counterexample: the claim states that decode returns nothing for
every integer code outside [0,8].  At code -1 Python list subscripting
addresses the last entry, so the source's `int2ga` returns the CIGAR kind
SEQUENCE_MISMATCH normally. -/
theorem C6_counterexample_int2ga_negative_index :
    SamCigar.int2ga (-1) = Except.ok "SEQUENCE_MISMATCH" := by
  decide

/-- C6 (amended): for every code c in [0,8], decode returns the kind at
position c of the fixed 9-entry list; for c in [-9,-1] Python's negative
indexing returns the kind at position c + 9; for every other integer code
decode raises IndexError instead of producing a kind. -/
theorem C6_int2ga_amended :
    (∀ j : Nat, j < 9 → ∀ k, SamCigar.cigarStrings.get? j = some k →
       SamCigar.int2ga (j : Int) = Except.ok k)
    ∧ (∀ j : Nat, j < 9 → ∀ k, SamCigar.cigarStrings.get? j = some k →
       SamCigar.int2ga ((j : Int) - 9) = Except.ok k)
    ∧ (∀ c : Int, c < -9 ∨ 8 < c →
       SamCigar.int2ga c = Except.error PyErr.indexError) := by
  refine ⟨?_, ?_, ?_⟩
  · intro j hj k hk
    have hj9 : j < SamCigar.cigarStrings.length := hj
    rw [List.get?_eq_get hj9] at hk
    have hk9 := Option.some.inj hk
    subst hk9
    exact (cigar_table_fin ⟨j, hj⟩).2
  · intro j hj k hk
    have hj9 : j < SamCigar.cigarStrings.length := hj
    rw [List.get?_eq_get hj9] at hk
    have hk9 := Option.some.inj hk
    subst hk9
    have hneg : ∀ jf : Fin 9, SamCigar.int2ga ((jf.val : Int) - 9)
        = Except.ok (SamCigar.cigarStrings.get ⟨jf.val, jf.isLt⟩) := by
      decide
    exact hneg ⟨j, hj⟩
  · intro c hc
    rcases hc with hc | hc
    · have hneg : c < 0 := by omega
      have hcond : ¬(0 ≤ (SamCigar.cigarStrings.length : Int) + c) := by
        have hlen : (SamCigar.cigarStrings.length : Int) = 9 := rfl
        rw [hlen]
        omega
      unfold SamCigar.int2ga pyGetItem
      rw [if_pos hneg, if_neg hcond]
    · have hpos : ¬c < 0 := by omega
      have hnone : SamCigar.cigarStrings.get? c.toNat = none := by
        rw [List.get?_eq_none]
        have hlen : SamCigar.cigarStrings.length = 9 := rfl
        rw [hlen]
        omega
      unfold SamCigar.int2ga pyGetItem
      rw [if_neg hpos, hnone]

/-- Witness for C6 at codes 4, -1 and 100. -/
theorem C6_witness_codes :
    SamCigar.int2ga (4 : Int) = Except.ok "CLIP_SOFT"
    ∧ SamCigar.int2ga ((8 : Int) - 9) = Except.ok "SEQUENCE_MISMATCH"
    ∧ SamCigar.int2ga 100 = Except.error PyErr.indexError :=
  ⟨C6_int2ga_amended.1 4 (by decide) "CLIP_SOFT" (by decide),
   C6_int2ga_amended.2.1 8 (by decide) "SEQUENCE_MISMATCH" (by decide),
   C6_int2ga_amended.2.2 100 (Or.inr (by decide))⟩

/-- Inversion for a successful `getRName`: the lookup resolved. -/
lemma getRName_ok (lookup : Int → Option String) (i : Int) (name : String)
    (h : getRName lookup i = Except.ok name) : lookup i = some name := by
  unfold getRName at h
  cases hl : lookup i with
  | none => rw [hl] at h; exact Except.noConfusion h
  | some nm =>
    rw [hl] at h
    exact congrArg some (Except.ok.inj h)

/-- Inversion for a successful `convertReadAlignment`: the fields of the
produced record that the claims are about, expressed through the
block-level helpers. -/
lemma convertReadAlignment_ok_fields
    (lookup : Int → Option String) (id_ : String) (read : RawRead)
    (ret : ReadAlignment)
    (h : convertReadAlignment lookup id_ read = Except.ok ret) :
    ret.numberReads = (convertReadNumbers read.flag).1
    ∧ ret.readNumber = (convertReadNumbers read.flag).2
    ∧ ret.properPlacement
        = SamFlags.isFlagSet read.flag SamFlags.PROPER_PLACEMENT
    ∧ ret.secondaryAlignment
        = SamFlags.isFlagSet read.flag SamFlags.SECONDARY_ALIGNMENT
    ∧ ret.alignment.position.strand = Strand.posStrand
    ∧ convertNextMatePosition lookup read = Except.ok ret.nextMatePosition
    ∧ convertCigar read.cigar = Except.ok ret.alignment.cigar := by
  unfold convertReadAlignment at h
  cases hg : getRName lookup read.reference_id with
  | error e => rw [hg] at h; exact Except.noConfusion h
  | ok referenceName =>
    rw [hg] at h
    cases hcg : convertCigar read.cigar with
    | error e => rw [hcg] at h; exact Except.noConfusion h
    | ok cigar =>
      rw [hcg] at h
      cases hn : convertNextMatePosition lookup read with
      | error e => rw [hn] at h; exact Except.noConfusion h
      | ok nmp =>
        rw [hn] at h
        have hret := (Except.ok.inj h).symm
        subst hret
        exact ⟨rfl, rfl, rfl, rfl, rfl, rfl, rfl⟩

/-- Inversion for a successful `convertNextMatePosition`. -/
lemma convertNextMatePosition_ok
    (lookup : Int → Option String) (read : RawRead) (r : Option Position)
    (h : convertNextMatePosition lookup read = Except.ok r) :
    (r = none ↔ read.next_reference_id = -1)
    ∧ ∀ p, r = some p →
        lookup read.next_reference_id = some p.referenceName
        ∧ p.position = read.next_reference_start
        ∧ p.strand = Strand.posStrand := by
  unfold convertNextMatePosition at h
  by_cases hid : read.next_reference_id = -1
  · rw [if_neg (not_not_intro hid)] at h
    have hr := (Except.ok.inj h).symm
    subst hr
    exact ⟨⟨fun _ => hid, fun _ => rfl⟩,
           fun p hp => absurd hp (by simp)⟩
  · rw [if_pos hid] at h
    cases hg : getRName lookup read.next_reference_id with
    | error e => rw [hg] at h; exact Except.noConfusion h
    | ok nm =>
      rw [hg] at h
      have hr := (Except.ok.inj h).symm
      subst hr
      refine ⟨⟨fun hc => absurd hc (by simp), fun hc => absurd hc hid⟩, ?_⟩
      intro p hp
      have hp9 := Option.some.inj hp
      subst hp9
      exact ⟨getRName_ok _ _ _ hg, rfl, rfl⟩

/-- Every CIGAR unit a successful `convertCigar` produces has a null
`referenceSequence`. -/
lemma convertCigar_referenceSequence_none
    (pairs : List (Int × Int)) (units : List CigarUnit)
    (h : convertCigar pairs = Except.ok units) :
    ∀ u ∈ units, u.referenceSequence = none := by
  induction pairs generalizing units with
  | nil =>
    have hu := (Except.ok.inj h).symm
    subst hu
    intro u hu
    exact absurd hu (by simp)
  | cons pr rest ih =>
    obtain ⟨op, len⟩ := pr
    unfold convertCigar at h
    cases h1 : SamCigar.int2ga op with
    | error e => rw [h1] at h; exact Except.noConfusion h
    | ok opS =>
      rw [h1] at h
      cases h2 : convertCigar rest with
      | error e => rw [h2] at h; exact Except.noConfusion h
      | ok us =>
        rw [h2] at h
        have hu := (Except.ok.inj h).symm
        subst hu
        intro u hu
        rw [List.mem_cons] at hu
        rcases hu with hu | hu
        · rw [hu]
        · exact ih us h2 u hu

/-! Theorems for the claims about the record mapper. -/

/-- C3: for every raw record successfully mapped, when the multi-segment
bit (0x1) is not set both numberReads and readNumber are null; when it is
set, numberReads is 2 and readNumber is 0 when the first-in-pair bit
(0x40) is set, else 1 when the second-in-pair bit (0x80) is set, else
null.  In particular a record with flag 0x43 maps to properPlacement true,
numberReads 2, readNumber 0 and secondaryAlignment false. -/
theorem C3_numberReads_readNumber
    (lookup : Int → Option String) (id_ : String) (read : RawRead)
    (ret : ReadAlignment)
    (h : convertReadAlignment lookup id_ read = Except.ok ret) :
    (SamFlags.isFlagSet read.flag SamFlags.NUMBER_READS = false →
       ret.numberReads = none ∧ ret.readNumber = none)
    ∧ (SamFlags.isFlagSet read.flag SamFlags.NUMBER_READS = true →
       ret.numberReads = some 2
       ∧ (SamFlags.isFlagSet read.flag SamFlags.READ_NUMBER_ONE = true →
            ret.readNumber = some 0)
       ∧ (SamFlags.isFlagSet read.flag SamFlags.READ_NUMBER_ONE = false →
          SamFlags.isFlagSet read.flag SamFlags.READ_NUMBER_TWO = true →
            ret.readNumber = some 1)
       ∧ (SamFlags.isFlagSet read.flag SamFlags.READ_NUMBER_ONE = false →
          SamFlags.isFlagSet read.flag SamFlags.READ_NUMBER_TWO = false →
            ret.readNumber = none))
    ∧ (read.flag = 0x43 →
       ret.properPlacement = true ∧ ret.numberReads = some 2
       ∧ ret.readNumber = some 0 ∧ ret.secondaryAlignment = false) := by
  obtain ⟨h1, h2, h3, h4, -, -, -⟩ :=
    convertReadAlignment_ok_fields lookup id_ read ret h
  refine ⟨?_, ?_, ?_⟩
  · intro hf
    rw [h1, h2]
    simp [convertReadNumbers, hf]
  · intro hf
    refine ⟨?_, ?_, ?_, ?_⟩
    · rw [h1]; simp [convertReadNumbers, hf]
    · intro hone; rw [h2]; simp [convertReadNumbers, hf, hone]
    · intro hone htwo; rw [h2]; simp [convertReadNumbers, hf, hone, htwo]
    · intro hone htwo; rw [h2]; simp [convertReadNumbers, hf, hone, htwo]
  · intro hflag
    rw [h1, h2, h3, h4, hflag]
    refine ⟨by decide, by decide, by decide, by decide⟩

/-- C4: for every raw record successfully mapped, nextMatePosition is null
exactly when the raw next-reference index is the sentinel -1; otherwise it
is a position whose referenceName is the looked-up name of the
next-reference index, whose position is the raw next-reference start
copied verbatim, and whose strand is positive. -/
theorem C4_nextMatePosition
    (lookup : Int → Option String) (id_ : String) (read : RawRead)
    (ret : ReadAlignment)
    (h : convertReadAlignment lookup id_ read = Except.ok ret) :
    (ret.nextMatePosition = none ↔ read.next_reference_id = -1)
    ∧ ∀ p, ret.nextMatePosition = some p →
        lookup read.next_reference_id = some p.referenceName
        ∧ p.position = read.next_reference_start
        ∧ p.strand = Strand.posStrand := by
  obtain ⟨-, -, -, -, -, hn, -⟩ :=
    convertReadAlignment_ok_fields lookup id_ read ret h
  exact convertNextMatePosition_ok lookup read ret.nextMatePosition hn

/-- C7: in every successfully mapped record the strand of
alignment.position is positive, the strand of nextMatePosition is positive
whenever it is non-null, and every CIGAR unit of alignment.cigar has a
null referenceSequence. -/
theorem C7_strand_and_referenceSequence
    (lookup : Int → Option String) (id_ : String) (read : RawRead)
    (ret : ReadAlignment)
    (h : convertReadAlignment lookup id_ read = Except.ok ret) :
    ret.alignment.position.strand = Strand.posStrand
    ∧ (∀ p, ret.nextMatePosition = some p → p.strand = Strand.posStrand)
    ∧ (∀ u ∈ ret.alignment.cigar, u.referenceSequence = none) := by
  obtain ⟨-, -, -, -, hs, hn, hcg⟩ :=
    convertReadAlignment_ok_fields lookup id_ read ret h
  refine ⟨hs, ?_, ?_⟩
  · intro p hp
    exact ((convertNextMatePosition_ok lookup read
      ret.nextMatePosition hn).2 p hp).2.2
  · exact convertCigar_referenceSequence_none read.cigar
      ret.alignment.cigar hcg

/-- C10: for every raw record successfully mapped whose flag has the
multi-segment bit (0x1), the first-in-pair bit (0x40) and the
second-in-pair bit (0x80) all set, readNumber is 0: the first-in-pair
test takes precedence over the second-in-pair test. -/
theorem C10_readNumber_precedence
    (lookup : Int → Option String) (id_ : String) (read : RawRead)
    (ret : ReadAlignment)
    (h : convertReadAlignment lookup id_ read = Except.ok ret)
    (h1 : SamFlags.isFlagSet read.flag SamFlags.NUMBER_READS = true)
    (h2 : SamFlags.isFlagSet read.flag SamFlags.READ_NUMBER_ONE = true)
    (h3 : SamFlags.isFlagSet read.flag SamFlags.READ_NUMBER_TWO = true) :
    ret.readNumber = some 0 := by
  obtain ⟨-, hr, -, -, -, -, -⟩ :=
    convertReadAlignment_ok_fields lookup id_ read ret h
  rw [hr]
  simp [convertReadNumbers, h1, h2]

/-- C8: a successful run of the mapper's loop yields exactly one record
per input record, in the same order the reader yields them; in particular
the output length equals the input length. -/
theorem C8_order_and_count_preserving
    (lookup : Int → Option String) (id_ : String)
    (reads : List RawRead) (out : List ReadAlignment)
    (h : getReadAlignments lookup id_ reads = Except.ok out) :
    out.length = reads.length
    ∧ ∀ i, (hi : i < reads.length) → (ho : i < out.length) →
        convertReadAlignment lookup id_ (reads.get ⟨i, hi⟩)
          = Except.ok (out.get ⟨i, ho⟩) := by
  induction reads generalizing out with
  | nil =>
    unfold getReadAlignments at h
    have hout := (Except.ok.inj h).symm
    subst hout
    exact ⟨rfl, fun i hi => absurd hi (by simp)⟩
  | cons r rs ih =>
    unfold getReadAlignments at h
    cases hc : convertReadAlignment lookup id_ r with
    | error e => rw [hc] at h; exact Except.noConfusion h
    | ok a =>
      rw [hc] at h
      cases hrest : getReadAlignments lookup id_ rs with
      | error e => rw [hrest] at h; exact Except.noConfusion h
      | ok as =>
        rw [hrest] at h
        have hout := (Except.ok.inj h).symm
        subst hout
        obtain ⟨ihlen, ihget⟩ := ih as hrest
        refine ⟨by simp [ihlen], ?_⟩
        intro i hi ho
        cases i with
        | zero => exact hc
        | succ n =>
          exact ihget n (Nat.lt_of_succ_lt_succ hi)
            (Nat.lt_of_succ_lt_succ ho)

/-! Concrete fixtures used by the witness theorems. -/

/-- A concrete reference-name table: index 0 is chr1, index 3 is chr3. -/
def wLookup : Int → Option String :=
  fun i => if i = 0 then some "chr1" else if i = 3 then some "chr3" else none

/-- A raw record with flag 0x43 (multi-segment, proper placement,
first-in-pair) and an unmapped mate. -/
def wReadA : RawRead :=
  { query_qualities := [30, 20],
    query_sequence := "ACGT",
    mapping_quality := 50,
    reference_id := 0,
    reference_start := 10,
    cigar := [],
    flag := 0x43,
    template_length := 120,
    query_name := "readA",
    tags := [],
    next_reference_id := -1,
    next_reference_start := 0 }

/-- The record `convertReadAlignment wLookup "rg" wReadA` produces. -/
def wRetA : ReadAlignment :=
  { alignedQuality := [30, 20],
    alignedSequence := "ACGT",
    alignment :=
      { mappingQuality := 50,
        position :=
          { referenceName := "chr1", position := 10,
            strand := Strand.posStrand },
        cigar := [] },
    duplicateFragment := false,
    failedVendorQualityChecks := false,
    fragmentLength := 120,
    fragmentName := "readA",
    id := "rg:readA",
    info := [],
    nextMatePosition := none,
    numberReads := some 2,
    readNumber := some 0,
    properPlacement := true,
    readGroupId := "rg",
    secondaryAlignment := false,
    supplementaryAlignment := false }

/-- A raw record with flag 0, one CIGAR match operation and a mate on
reference index 3. -/
def wReadB : RawRead :=
  { wReadA with
    query_name := "readB",
    flag := 0,
    cigar := [(0, 10)],
    next_reference_id := 3,
    next_reference_start := 99 }

/-- The mate position of the converted `wReadB`. -/
def wPosB : Position :=
  { referenceName := "chr3", position := 99, strand := Strand.posStrand }

/-- The CIGAR unit of the converted `wReadB`. -/
def wUnitB : CigarUnit :=
  { operation := "ALIGNMENT_MATCH", operationLength := 10,
    referenceSequence := none }

/-- The record `convertReadAlignment wLookup "rg" wReadB` produces. -/
def wRetB : ReadAlignment :=
  { wRetA with
    fragmentName := "readB",
    id := "rg:readB",
    alignment :=
      { mappingQuality := 50,
        position :=
          { referenceName := "chr1", position := 10,
            strand := Strand.posStrand },
        cigar := [wUnitB] },
    nextMatePosition := some wPosB,
    numberReads := none,
    readNumber := none,
    properPlacement := false }

/-- A raw record with flag 0xC1: multi-segment, first-in-pair and
second-in-pair all set. -/
def wReadC : RawRead :=
  { wReadA with query_name := "readC", flag := 0xC1 }

/-- The record `convertReadAlignment wLookup "rg" wReadC` produces. -/
def wRetC : ReadAlignment :=
  { wRetA with
    fragmentName := "readC",
    id := "rg:readC",
    properPlacement := false }

/-- Witness for C3: the conversion of `wReadA` (flag 0x43) evaluated. -/
theorem C3_witness_flag_0x43 :
    wRetA.properPlacement = true ∧ wRetA.numberReads = some 2
    ∧ wRetA.readNumber = some 0 ∧ wRetA.secondaryAlignment = false :=
  (C3_numberReads_readNumber wLookup "rg" wReadA wRetA (by decide)).2.2
    (by decide)

/-- Witness for C4: the conversion of `wReadB` (mate on index 3)
evaluated. -/
theorem C4_witness_mate_on_index_3 :
    wLookup wReadB.next_reference_id = some wPosB.referenceName
    ∧ wPosB.position = wReadB.next_reference_start
    ∧ wPosB.strand = Strand.posStrand :=
  (C4_nextMatePosition wLookup "rg" wReadB wRetB (by decide)).2 wPosB
    (by decide)

/-- Witness for C7: the conversion of `wReadB` evaluated. -/
theorem C7_witness_concrete_unit :
    wRetB.alignment.position.strand = Strand.posStrand
    ∧ wUnitB.referenceSequence = none :=
  ⟨(C7_strand_and_referenceSequence wLookup "rg" wReadB wRetB
      (by decide)).1,
   (C7_strand_and_referenceSequence wLookup "rg" wReadB wRetB
      (by decide)).2.2 wUnitB (by decide)⟩

/-- Witness for C10: the conversion of `wReadC` (flag 0xC1) evaluated. -/
theorem C10_witness_flag_0xC1 :
    wRetC.readNumber = some 0 :=
  C10_readNumber_precedence wLookup "rg" wReadC wRetC (by decide)
    (by decide) (by decide) (by decide)

/-- Witness for C8: a two-record run evaluated. -/
theorem C8_witness_two_records :
    ([wRetA, wRetB] : List ReadAlignment).length
      = ([wReadA, wReadB] : List RawRead).length
    ∧ convertReadAlignment wLookup "rg" wReadA = Except.ok wRetA :=
  ⟨(C8_order_and_count_preserving wLookup "rg" [wReadA, wReadB]
      [wRetA, wRetB] (by decide)).1,
   (C8_order_and_count_preserving wLookup "rg" [wReadA, wReadB]
      [wRetA, wRetB] (by decide)).2 0 (by decide) (by decide)⟩

/-! The frontend route table of `ga4gh/frontend.py`. -/

/-- What a route handler body does: either it immediately raises
`frontendExceptions.PathNotFoundException`, or it is a pass-through
delegation to the named method of the `app.backend` object (POST handled
by `handleHTTPPost(flask.request, app.backend.<endpoint>)`, OPTIONS by
`handleHTTPOptions()`). -/
inductive RouteBehavior where
  | raisePathNotFound
  | backendDelegate (endpoint : String)
  deriving DecidableEq, Repr

def RouteBehavior.isBackendDelegate : RouteBehavior → Bool
  | .raisePathNotFound => false
  | .backendDelegate _ => true

/-- The `@app.route` table of `ga4gh/frontend.py`, in source order. -/
def frontendRoutes : List (String × RouteBehavior) :=
  [("/", RouteBehavior.raisePathNotFound),
   ("/references/<id>", RouteBehavior.raisePathNotFound),
   ("/references/<id>/bases", RouteBehavior.raisePathNotFound),
   ("/referencesets/<id>", RouteBehavior.raisePathNotFound),
   ("/callsets/search", RouteBehavior.raisePathNotFound),
   ("/readgroupsets/search", RouteBehavior.raisePathNotFound),
   ("/reads/search", RouteBehavior.raisePathNotFound),
   ("/referencesets/search", RouteBehavior.raisePathNotFound),
   ("/references/search", RouteBehavior.raisePathNotFound),
   ("/variantsets/search", RouteBehavior.backendDelegate "searchVariantSets"),
   ("/variants/search", RouteBehavior.backendDelegate "searchVariants"),
   ("/expressionanalysis/search",
    RouteBehavior.backendDelegate "searchExpressionAnalysis")]

/-- C9 counterexample: the claim states that exactly two routes are
implemented as pass-through delegations to the backend; the frontend's
route table has three such routes. -/
theorem C9_counterexample_three_delegations :
    (frontendRoutes.filter (fun r => r.2.isBackendDelegate)).length = 3
    ∧ (frontendRoutes.filter (fun r => r.2.isBackendDelegate)).length ≠ 2 := by
  decide

/-- C9 (amended): among the frontend's HTTP routes, exactly three are
pass-through delegations to the backend object (variantsets/search,
variants/search and expressionanalysis/search), and every one of the nine
other routes immediately raises the path-not-found error. -/
theorem C9_routes_amended :
    (frontendRoutes.filter (fun r => r.2.isBackendDelegate)).map Prod.fst
      = ["/variantsets/search", "/variants/search",
         "/expressionanalysis/search"]
    ∧ (frontendRoutes.filter
        (fun r => !r.2.isBackendDelegate)).length = 9
    ∧ (frontendRoutes.filter (fun r => !r.2.isBackendDelegate)).all
        (fun r => r.2 == RouteBehavior.raisePathNotFound) = true
    ∧ frontendRoutes.length = 12 := by
  decide
